import Mathlib

/-!
Shallow embedding of `src/lib/singular.rs` from the rust-protobuf repository:
the `SingularField<T>` container, an optional-value wrapper whose `clear`
retains the underlying allocation so that a later `set_default` can reset it
in place instead of allocating afresh.

Modelling conventions:
* `Option<Box<T>>` is modelled as `Option T` (the box only matters for
  allocation identity, which the claims phrase in terms of whether the
  `value` field holds an allocation, i.e. `isSome`).
* A Rust panic (`fail!()`, `Option::unwrap` on `None`, `Option::get_ref` on
  `None`) is modelled by returning `Option.none` from the embedded function;
  `Option.some r` is a normal return of `r`.
* Rust's `Default` trait is modelled by Lean's `Inhabited` (method
  `Default::default()` becomes `default`).
* The repository's `Clear` trait (`fn clear(&mut self)`, an in-place reset)
  is modelled by the class `Clear` below, the mutation written as a pure
  function `α → α`.
* Rust's `Clone` trait is modelled by the class `Clone` below.
-/

/-- The repository's `Clear` capability: reset a value to its default state
in place (trait `Clear` from clear.rs, consumed by singular.rs). The in-place
mutation `fn clear(&mut self)` is modelled as a pure function. -/
class Clear (α : Type) where
  clear : α → α

/-- Modelled from the spec: the repository's `Clear` impl for the nullable
allocation `Option<Box<T>>` lives in clear.rs, which is not under src/. Per
the spec (§6, §4 `unwrap_or_default`), the reset capability is a single
operation that "resets that allocation in place": when an allocation is held
it resets the boxed value in place (the allocation itself stays), and on an
empty option it has nothing to reset. -/
instance instClearOption {T : Type} [Clear T] : Clear (Option T) where
  clear o := o.map Clear.clear

/-- Rust's `Clone` capability, modelled as a pure function. -/
class Clone (α : Type) where
  clone : α → α

/-- Rust's `PartialOrd::lt` capability, modelled as a boolean relation. -/
class POrd (α : Type) where
  lt : α → α → Bool

/-- Rust's derived `PartialOrd::lt` on `Option`: `None` is less than
`Some(_)`, two `None`s are not ordered strictly, and two `Some`s compare by
the payloads. This is the ordering `self.as_ref() < other.as_ref()` uses. -/
def optLt {T : Type} [POrd T] : Option T → Option T → Bool
  | Option.none, Option.some _ => true
  | Option.some u, Option.some w => POrd.lt u w
  | _, Option.none => false

/-- The `SingularField<T>` struct: `value: Option<Box<T>>` and `set: bool`
(the logical presence flag). -/
structure SingularField (T : Type) where
  value : Option T
  set : Bool
deriving Repr, DecidableEq

/-- Constructor `SingularField::some(value)`: presence flag true, value boxed. -/
def SingularField.some {T : Type} (v : T) : SingularField T :=
  ⟨Option.some v, true⟩

/-- Constructor `SingularField::none()`: presence flag false, no allocation. -/
def SingularField.none {T : Type} : SingularField T :=
  ⟨Option.none, false⟩

/-- Constructor `SingularField::from_option(option)`. -/
def SingularField.from_option {T : Type} : Option T → SingularField T
  | Option.some x => SingularField.some x
  | Option.none => SingularField.none

/-- Query `SingularField::is_some`. -/
def SingularField.is_some {T : Type} (s : SingularField T) : Bool :=
  s.set

/-- Query `SingularField::is_none`. -/
def SingularField.is_none {T : Type} (s : SingularField T) : Bool :=
  !s.is_some

/-- Consumer `SingularField::into_option`: if the flag is set, unwrap the
allocation (a panic if, contrary to the invariant, none is held) and return
`Some`; otherwise return `None`. Outer `Option` is the panic model. -/
def SingularField.into_option {T : Type} (s : SingularField T) : Option (Option T) :=
  if s.set then s.value.map Option.some else Option.some Option.none

/-- Accessor `SingularField::as_ref`: if the flag is set, borrow the boxed
value (`self.value.get_ref()` panics when no allocation is held); otherwise
return `None` without failing. Outer `Option` is the panic model. -/
def SingularField.as_ref {T : Type} (s : SingularField T) : Option (Option T) :=
  if s.set then s.value.map Option.some else Option.some Option.none

/-- Accessor `SingularField::as_mut`, identical shape to `as_ref`. -/
def SingularField.as_mut {T : Type} (s : SingularField T) : Option (Option T) :=
  if s.set then s.value.map Option.some else Option.some Option.none

/-- Accessor `SingularField::get_ref`: `self.as_ref().unwrap()` — propagate a
panic from `as_ref`, then panic if it returned `None`. -/
def SingularField.get_ref {T : Type} (s : SingularField T) : Option T :=
  s.as_ref.bind id

/-- Accessor `SingularField::get_mut_ref`: `self.as_mut().unwrap()`. -/
def SingularField.get_mut_ref {T : Type} (s : SingularField T) : Option T :=
  s.as_mut.bind id

/-- Consumer `SingularField::unwrap`: the value if the flag is set (panicking
if no allocation is held), `fail!()` otherwise. -/
def SingularField.unwrap {T : Type} (s : SingularField T) : Option T :=
  if s.set then s.value else Option.none

/-- Mutator `SingularField::take`: if the flag is set, clear it, move the
allocation out (`self.value.take().unwrap()`, a panic if none was held) and
return `Some` of the value together with the new state; if absent, return
`None` and leave the state untouched. Outer `Option` is the panic model. -/
def SingularField.take {T : Type} (s : SingularField T) :
    Option (Option T × SingularField T) :=
  if s.set then
    match s.value with
    | Option.some v => Option.some (Option.some v, ⟨Option.none, false⟩)
    | Option.none => Option.none
  else
    Option.some (Option.none, s)

/-- Mutator `SingularField::clear`: only flips the presence flag; the
allocation, if any, is retained. -/
def SingularField.clear {T : Type} (s : SingularField T) : SingularField T :=
  { s with set := false }

/-- Consumer `SingularField::unwrap_or_default` (requires `T : Default +
Clear`): if present, `self.unwrap()`; else if an allocation is retained,
`self.value.clear()` resets it in place and `self.value.unwrap()` moves it
out; else a freshly default-constructed value. The retained-allocation
branch returns `Clear.clear` of the whole `value` option (which under the
`isSome` guard is `Option.some` of the reset payload, so the subsequent
unwrap is its payload — in the panic model that option itself). -/
def SingularField.unwrap_or_default {T : Type} [Inhabited T] [Clear T]
    (s : SingularField T) : Option T :=
  if s.set then s.unwrap
  else if s.value.isSome then Clear.clear s.value
  else Option.some Inhabited.default

/-- Mutator `SingularField::set_default` (requires `T : Default + Clear`):
set the presence flag; if an allocation is retained, reset it in place
(`self.value.get_mut_ref().clear()`), else store a freshly boxed default.
The `&mut T` the source returns is `self.get_mut_ref()` on the new state,
so the function here returns only the new state and the borrowed view is
read off with `get_mut_ref`/`get_ref`. -/
def SingularField.set_default {T : Type} [Inhabited T] [Clear T]
    (s : SingularField T) : SingularField T :=
  ⟨if s.value.isSome then s.value.map Clear.clear
   else Option.some Inhabited.default, true⟩

/-- Models a caller overwriting the payload through a previously returned
mutable borrow (`as_mut`, `get_mut_ref`, or the reference `set_default`
returns): the contents of the box change, but neither the presence flag nor
whether an allocation is held can change through a `&mut T`. -/
def SingularField.mutate {T : Type} (s : SingularField T) (w : T) :
    SingularField T :=
  ⟨s.value.map (fun _ => w), s.set⟩

/-- The `Default` impl for the container itself: the absent state. -/
instance instInhabitedSingularField {T : Type} : Inhabited (SingularField T) :=
  ⟨SingularField.none⟩

/-- The `Clone` impl: if the flag is set, a fresh present container holding a
clone of the value (`self.get_ref()` panics on a missing allocation);
otherwise a fresh `none()` container — any retained allocation is dropped. -/
def SingularField.clone {T : Type} [Clone T] (s : SingularField T) :
    Option (SingularField T) :=
  if s.set then s.get_ref.map (fun v => SingularField.some (Clone.clone v))
  else Option.some SingularField.none

/-- The `PartialEq` impl: `self.as_ref() == other.as_ref()`, panics from
`as_ref` propagating, the two borrowed options compared with `Option`
equality. -/
def SingularField.peq {T : Type} [BEq T] (a b : SingularField T) : Option Bool :=
  match a.as_ref, b.as_ref with
  | Option.some x, Option.some y => Option.some (x == y)
  | _, _ => Option.none

/-- The `PartialOrd` impl: `self.as_ref() < other.as_ref()`, panics from
`as_ref` propagating, the two borrowed options compared with `optLt`. -/
def SingularField.slt {T : Type} [POrd T] (a b : SingularField T) : Option Bool :=
  match a.as_ref, b.as_ref with
  | Option.some x, Option.some y => Option.some (optLt x y)
  | _, _ => Option.none

/-- The state-machine alphabet for reachability claims: the mutating
operations a caller can apply to a container it keeps (`clear`, `take`,
`set_default`), plus `mutOp w` modelling a write through a borrowed mutable
reference (the borrowing accessors themselves do not change the state). -/
inductive Op (T : Type) where
  | clearOp : Op T
  | takeOp : Op T
  | setDefaultOp : Op T
  | mutOp : T → Op T

/-- Apply one operation to a container state. A `take` that panics (only
possible when the presence invariant is already violated) is modelled as
leaving the state unchanged. -/
def SingularField.applyOp {T : Type} [Inhabited T] [Clear T] :
    Op T → SingularField T → SingularField T
  | Op.clearOp, s => s.clear
  | Op.takeOp, s =>
    match s.take with
    | Option.some p => p.2
    | Option.none => s
  | Op.setDefaultOp, s => s.set_default
  | Op.mutOp w, s => s.mutate w

/-- Run a sequence of operations from an initial state. -/
def SingularField.run {T : Type} [Inhabited T] [Clear T]
    (ops : List (Op T)) (s : SingularField T) : SingularField T :=
  ops.foldl (fun t op => SingularField.applyOp op t) s

/-- The data-model invariant: a set presence flag implies the `value` field
holds an allocation. -/
def SingularField.inv {T : Type} (s : SingularField T) : Prop :=
  s.set = true → s.value.isSome = true

/-- Concrete `Clear` instance used to evaluate theorems at `T = Nat`:
resetting a counter zeroes it. -/
instance instClearNat : Clear Nat := ⟨fun _ => 0⟩

/-- Concrete `Clone` instance for `Nat`. -/
instance instCloneNat : Clone Nat := ⟨fun n => n⟩

/-- Concrete `POrd` instance for `Nat`. -/
instance instPOrdNat : POrd Nat := ⟨Nat.blt⟩

/-! Theorems. -/

/-- C1: for every container of a `Default+Clear` payload type satisfying the
presence invariant, `unwrap_or_default` never fails (panics) and returns the
contained value when present, the retained allocation reset in place when
absent with a retained allocation, and a freshly default-constructed value
when absent with no allocation. -/
theorem SingularField.unwrap_or_default_total {T : Type} [Inhabited T] [Clear T]
    (s : SingularField T) (h : s.inv) :
    (s.unwrap_or_default).isSome = true
    ∧ (∀ v, s.set = true → s.value = Option.some v →
        s.unwrap_or_default = Option.some v)
    ∧ (∀ v, s.set = false → s.value = Option.some v →
        s.unwrap_or_default = Option.some (Clear.clear v))
    ∧ (s.set = false → s.value = Option.none →
        s.unwrap_or_default = Option.some (Inhabited.default : T)) := by
  obtain ⟨val, st⟩ := s
  cases st with
  | false =>
    cases val with
    | none =>
      simp [SingularField.unwrap_or_default, SingularField.unwrap]
    | some v =>
      simp [SingularField.unwrap_or_default, SingularField.unwrap,
        instClearOption, Option.map]
  | true =>
    have hv : (Option.isSome val) = true := h rfl
    cases val with
    | none => simp at hv
    | some v =>
      simp [SingularField.unwrap_or_default, SingularField.unwrap]

/-- C1 witness: an absent container with a retained allocation (value 5)
yields the allocation reset in place (for the `Nat` instance, 0). -/
theorem SingularField.unwrap_or_default_total_w :
    SingularField.unwrap_or_default
      (⟨Option.some 5, false⟩ : SingularField Nat) = Option.some 0 :=
  (SingularField.unwrap_or_default_total ⟨Option.some 5, false⟩
    (fun _ => rfl)).2.2.1 5 rfl rfl

/-- C2: assuming the payload's reset restores the default state, the value
observed through `get_ref` right after `set_default` is the default state,
and it is again the default state after `set_default`, an arbitrary mutation
through the returned reference, `clear`, and a second `set_default` — the
mutation does not survive even though the allocation is reused. -/
theorem SingularField.set_default_reuse {T : Type} [Inhabited T] [Clear T]
    (hclr : ∀ v : T, Clear.clear v = (Inhabited.default : T))
    (s : SingularField T) (w : T) :
    (s.set_default).get_ref = Option.some (Inhabited.default : T)
    ∧ ((((s.set_default).mutate w).clear).set_default).get_ref
        = Option.some (Inhabited.default : T) := by
  obtain ⟨val, st⟩ := s
  cases val with
  | none =>
    simp [SingularField.set_default, SingularField.get_ref,
      SingularField.as_ref, SingularField.mutate, SingularField.clear,
      Option.map, hclr]
  | some v =>
    simp [SingularField.set_default, SingularField.get_ref,
      SingularField.as_ref, SingularField.mutate, SingularField.clear,
      Option.map, hclr]

/-- C2 witness: starting from a present container holding 5, mutating the
reused allocation to 7 between the two `set_default` calls still reads back
the default 0 both times. -/
theorem SingularField.set_default_reuse_w :
    ((SingularField.some 5 : SingularField Nat).set_default).get_ref
        = Option.some 0
    ∧ ((((((SingularField.some 5 : SingularField Nat).set_default).mutate
        7)).clear).set_default).get_ref = Option.some 0 :=
  SingularField.set_default_reuse (fun _ => rfl) (SingularField.some 5) 7

/-- Each single operation preserves the presence invariant. -/
theorem SingularField.inv_applyOp {T : Type} [Inhabited T] [Clear T]
    (op : Op T) (s : SingularField T) (h : s.inv) :
    (SingularField.applyOp op s).inv := by
  obtain ⟨val, st⟩ := s
  cases op with
  | clearOp =>
    intro hc
    simp [SingularField.applyOp, SingularField.clear] at hc
  | takeOp =>
    cases st with
    | false => exact h
    | true =>
      have hv : (Option.isSome val) = true := h rfl
      cases val with
      | none => simp at hv
      | some v =>
        intro hc
        simp [SingularField.applyOp, SingularField.take] at hc
  | setDefaultOp =>
    intro _
    cases val <;>
      simp [SingularField.applyOp, SingularField.set_default, Option.map]
  | mutOp w =>
    intro hc
    simp [SingularField.applyOp, SingularField.mutate] at hc ⊢
    have hv : (Option.isSome val) = true := h hc
    cases val with
    | none => simp at hv
    | some v => simp [Option.map]

/-- Running any sequence of operations preserves the presence invariant. -/
theorem SingularField.inv_run {T : Type} [Inhabited T] [Clear T]
    (ops : List (Op T)) :
    ∀ s : SingularField T, s.inv → (SingularField.run ops s).inv := by
  induction ops with
  | nil => intro s h; exact h
  | cons op rest ih =>
    intro s h
    have : SingularField.run (op :: rest) s
        = SingularField.run rest (SingularField.applyOp op s) := rfl
    rw [this]
    exact ih _ (SingularField.inv_applyOp op s h)

/-- C3: every state reachable from one of the constructors (`some`, `none`,
`from_option`, the `Default` impl) by a sequence of `clear`, `take`,
`set_default` and writes through borrowed mutable references satisfies the
invariant: the presence flag being true implies the `value` field holds an
allocation. -/
theorem SingularField.reachable_inv {T : Type} [Inhabited T] [Clear T]
    (ops : List (Op T)) (s0 : SingularField T)
    (h0 : (∃ v, s0 = SingularField.some v) ∨ s0 = SingularField.none
        ∨ (∃ o, s0 = SingularField.from_option o)
        ∨ s0 = (Inhabited.default : SingularField T)) :
    (SingularField.run ops s0).inv := by
  have hs0 : s0.inv := by
    rcases h0 with ⟨v, rfl⟩ | rfl | ⟨o, rfl⟩ | rfl
    · intro _; rfl
    · intro hc; simp [SingularField.none] at hc
    · cases o with
      | none => intro hc; simp [SingularField.from_option, SingularField.none] at hc
      | some x => intro _; rfl
    · intro hc
      simp [instInhabitedSingularField, SingularField.none] at hc
  exact SingularField.inv_run ops s0 hs0

/-- C3 witness: a concrete run from `some 5` through clear, a mutation and
`set_default` ends in a state satisfying the invariant. -/
theorem SingularField.reachable_inv_w :
    (SingularField.run [Op.clearOp, Op.mutOp 3, Op.setDefaultOp]
      (SingularField.some 5) : SingularField Nat).inv :=
  SingularField.reachable_inv _ _ (Or.inl ⟨5, rfl⟩)

/-- C4: no single operation moves a container from Absent-RetainedAlloc
(flag false, allocation held) to Absent-NoAlloc (flag false, no allocation):
after any operation the allocation is still held, and in particular `clear`
and `take` on such a container leave its whole state unchanged (so the
allocation stays in place and the container stays absent), `take` returning
nothing. -/
theorem SingularField.retained_alloc_persists {T : Type} [Inhabited T] [Clear T]
    (op : Op T) (s : SingularField T)
    (habs : s.set = false) (halloc : s.value.isSome = true) :
    ((SingularField.applyOp op s).value.isSome = true
      ∧ ¬((SingularField.applyOp op s).set = false
          ∧ (SingularField.applyOp op s).value = Option.none))
    ∧ s.clear = s
    ∧ s.take = Option.some (Option.none, s) := by
  obtain ⟨val, st⟩ := s
  simp only at habs halloc
  subst habs
  cases val with
  | none => simp at halloc
  | some v =>
    refine ⟨?_, ?_, ?_⟩
    · cases op <;>
        simp [SingularField.applyOp, SingularField.clear, SingularField.take,
          SingularField.set_default, SingularField.mutate, Option.map]
    · simp [SingularField.clear]
    · simp [SingularField.take]

/-- C4 witness: for the `take` operation applied to an absent `Nat`
container retaining the value 5, the allocation persists, the
Absent-NoAlloc state is not reached, and `clear` and `take` leave the state
unchanged. -/
theorem SingularField.retained_alloc_persists_w :
    ((SingularField.applyOp Op.takeOp
        (⟨Option.some 5, false⟩ : SingularField Nat)).value.isSome = true
      ∧ ¬((SingularField.applyOp Op.takeOp
            (⟨Option.some 5, false⟩ : SingularField Nat)).set = false
          ∧ (SingularField.applyOp Op.takeOp
              (⟨Option.some 5, false⟩ : SingularField Nat)).value = Option.none))
    ∧ (⟨Option.some 5, false⟩ : SingularField Nat).clear
        = (⟨Option.some 5, false⟩ : SingularField Nat)
    ∧ (⟨Option.some 5, false⟩ : SingularField Nat).take
        = Option.some (Option.none, (⟨Option.some 5, false⟩ : SingularField Nat)) :=
  SingularField.retained_alloc_persists Op.takeOp ⟨Option.some 5, false⟩ rfl rfl

/-- C5: on a present container holding `v`, `take` returns `Some v` and
leaves an absent container with no retained allocation, and `set_default`
on that emptied container allocates a fresh default value (it does not go
through the reuse path); on an absent container, `take` returns `None` and
leaves the entire state unchanged. -/
theorem SingularField.take_correct {T : Type} [Inhabited T] [Clear T]
    (s : SingularField T) :
    (∀ v, s.set = true → s.value = Option.some v →
       s.take = Option.some (Option.some v, (⟨Option.none, false⟩ : SingularField T))
       ∧ (⟨Option.none, false⟩ : SingularField T).set_default
           = (⟨Option.some (Inhabited.default : T), true⟩ : SingularField T))
    ∧ (s.set = false → s.take = Option.some (Option.none, s)) := by
  obtain ⟨val, st⟩ := s
  constructor
  · intro v hset hval
    simp only at hset hval
    subst hset
    subst hval
    exact ⟨by simp [SingularField.take], by simp [SingularField.set_default]⟩
  · intro hset
    simp only at hset
    subst hset
    simp [SingularField.take]

/-- C5 witness: taking from a present container holding 5 yields `Some 5`
and the emptied state, whose `set_default` freshly allocates the default 0. -/
theorem SingularField.take_correct_w :
    (SingularField.some 5 : SingularField Nat).take
        = Option.some (Option.some 5, (⟨Option.none, false⟩ : SingularField Nat))
    ∧ (⟨Option.none, false⟩ : SingularField Nat).set_default
        = (⟨Option.some 0, true⟩ : SingularField Nat) :=
  (SingularField.take_correct (SingularField.some 5)).1 5 rfl rfl

/-- C6: on any container satisfying the presence invariant, the
value-returning accessors `unwrap`, `get_ref` and `get_mut_ref` fail
(panic) exactly when the container is absent, and when it is present with
value `v` they all return `v`. -/
theorem SingularField.accessors_fail_iff_absent {T : Type}
    (s : SingularField T) (h : s.inv) :
    (s.unwrap = Option.none ↔ s.is_none = true)
    ∧ (s.get_ref = Option.none ↔ s.is_none = true)
    ∧ (s.get_mut_ref = Option.none ↔ s.is_none = true)
    ∧ (∀ v, s.set = true → s.value = Option.some v →
        s.unwrap = Option.some v ∧ s.get_ref = Option.some v
          ∧ s.get_mut_ref = Option.some v) := by
  obtain ⟨val, st⟩ := s
  cases st with
  | false =>
    simp [SingularField.unwrap, SingularField.get_ref, SingularField.get_mut_ref,
      SingularField.as_ref, SingularField.as_mut, SingularField.is_none,
      SingularField.is_some]
  | true =>
    have hv : (Option.isSome val) = true := h rfl
    cases val with
    | none => simp at hv
    | some v =>
      simp [SingularField.unwrap, SingularField.get_ref, SingularField.get_mut_ref,
        SingularField.as_ref, SingularField.as_mut, SingularField.is_none,
        SingularField.is_some, Option.map]

/-- C6 witness: on the present container holding 5 the three accessors all
succeed with 5. -/
theorem SingularField.accessors_fail_iff_absent_w :
    (SingularField.some 5 : SingularField Nat).unwrap = Option.some 5
    ∧ (SingularField.some 5 : SingularField Nat).get_ref = Option.some 5
    ∧ (SingularField.some 5 : SingularField Nat).get_mut_ref = Option.some 5 :=
  (SingularField.accessors_fail_iff_absent (SingularField.some 5)
    (fun _ => rfl)).2.2.2 5 rfl rfl

/-- C7: converting a standard optional into the container and back is the
identity (and in particular never panics), for both the `Some` and the
`None` case. -/
theorem SingularField.from_option_into_option {T : Type} (opt : Option T) :
    (SingularField.from_option opt).into_option = Option.some opt := by
  cases opt <;>
    simp [SingularField.from_option, SingularField.into_option,
      SingularField.some, SingularField.none, Option.map]

/-- C7 witness: the round trip at `Some 5`. -/
theorem SingularField.from_option_into_option_w :
    (SingularField.from_option (Option.some 5) : SingularField Nat).into_option
        = Option.some (Option.some 5) :=
  SingularField.from_option_into_option (Option.some 5)

/-- Derived `BEq` on `Option` (used by `PartialEq for Option<&T>`): two
empty options are equal. -/
theorem optBeqNoneNone {T : Type} [BEq T] :
    ((Option.none : Option T) == Option.none) = true := rfl

/-- Derived `BEq` on `Option`: an empty option differs from a non-empty one. -/
theorem optBeqNoneSome {T : Type} [BEq T] (w : T) :
    ((Option.none : Option T) == Option.some w) = false := rfl

/-- Derived `BEq` on `Option`: a non-empty option differs from an empty one. -/
theorem optBeqSomeNone {T : Type} [BEq T] (u : T) :
    ((Option.some u : Option T) == Option.none) = false := rfl

/-- Derived `BEq` on `Option`: non-empty options compare by payload. -/
theorem optBeqSomeSome {T : Type} [BEq T] (u w : T) :
    ((Option.some u : Option T) == Option.some w) = (u == w) := rfl

/-- C8: equality of containers depends only on the logical state: `peq`
yields `true` exactly when both are absent or both are present with equal
values, and in particular a `some x` container that was cleared compares
equal to `none()` (despite its retained allocation) and unequal to
`some x`. -/
theorem SingularField.eq_iff_logical {T : Type} [BEq T]
    (a b : SingularField T) (x : T) :
    (SingularField.peq a b = Option.some true ↔
      ((a.set = false ∧ b.set = false)
        ∨ (∃ u w, a.set = true ∧ a.value = Option.some u
            ∧ b.set = true ∧ b.value = Option.some w ∧ (u == w) = true)))
    ∧ SingularField.peq ((SingularField.some x).clear) SingularField.none
        = Option.some true
    ∧ SingularField.peq ((SingularField.some x).clear) (SingularField.some x)
        = Option.some false := by
  refine ⟨?_, ?_, ?_⟩
  · obtain ⟨av, sa⟩ := a
    obtain ⟨bv, sb⟩ := b
    cases sa <;> cases sb <;> cases av <;> cases bv <;>
      simp [SingularField.peq, SingularField.as_ref, Option.map,
        optBeqNoneNone, optBeqNoneSome, optBeqSomeNone, optBeqSomeSome]
  · simp [SingularField.peq, SingularField.as_ref, SingularField.clear,
      SingularField.some, SingularField.none, Option.map, optBeqNoneNone]
  · simp [SingularField.peq, SingularField.as_ref, SingularField.clear,
      SingularField.some, Option.map, optBeqNoneSome]

/-- C8 witness: the cleared `some 5` container equals `none()` and differs
from `some 5`. -/
theorem SingularField.eq_iff_logical_w :
    SingularField.peq ((SingularField.some 5).clear)
        (SingularField.none : SingularField Nat) = Option.some true
    ∧ SingularField.peq ((SingularField.some 5).clear)
        (SingularField.some 5 : SingularField Nat) = Option.some false :=
  ⟨(SingularField.eq_iff_logical (SingularField.some 5) SingularField.none 5).2.1,
   (SingularField.eq_iff_logical (SingularField.some 5) SingularField.none 5).2.2⟩

/-- C9: `clone` copies only the logical state: an absent container (with or
without a retained allocation) clones to the allocation-free `none()`
container, on which `set_default` must freshly allocate the default value;
a present container holding `v` clones to a present container holding a
clone of `v`. -/
theorem SingularField.clone_drops_retained {T : Type} [Clone T] [Inhabited T]
    [Clear T] (s : SingularField T) :
    (s.set = false →
       s.clone = Option.some SingularField.none
       ∧ (SingularField.none : SingularField T).set_default
           = (⟨Option.some (Inhabited.default : T), true⟩ : SingularField T))
    ∧ (∀ v, s.set = true → s.value = Option.some v →
       s.clone = Option.some (SingularField.some (Clone.clone v))) := by
  obtain ⟨val, st⟩ := s
  constructor
  · intro hset
    simp only at hset
    subst hset
    exact ⟨by simp [SingularField.clone],
      by simp [SingularField.set_default, SingularField.none]⟩
  · intro v hset hval
    simp only at hset hval
    subst hset
    subst hval
    simp [SingularField.clone, SingularField.get_ref, SingularField.as_ref,
      Option.map]

/-- C9 witness: cloning the cleared `some 5` container (which retains its
allocation) yields the allocation-free `none()` container, and `set_default`
on that clone freshly allocates the default 0. -/
theorem SingularField.clone_drops_retained_w :
    ((SingularField.some 5 : SingularField Nat).clear).clone
        = Option.some SingularField.none
    ∧ (SingularField.none : SingularField Nat).set_default
        = (⟨Option.some 0, true⟩ : SingularField Nat) :=
  (SingularField.clone_drops_retained ((SingularField.some 5).clear)).1 rfl

/-- C10: the ordering compares the logical optional views, ignoring retained
allocations: `none()` is strictly below `some x`; `lt` between two absent
containers (whatever they retain) is false; and `lt` between two present
containers is `lt` of their values. -/
theorem SingularField.lt_logical {T : Type} [POrd T]
    (a b : SingularField T) (x : T) :
    SingularField.slt SingularField.none (SingularField.some x) = Option.some true
    ∧ (a.set = false → b.set = false →
        SingularField.slt a b = Option.some false)
    ∧ (∀ u w, a.set = true → a.value = Option.some u →
        b.set = true → b.value = Option.some w →
        SingularField.slt a b = Option.some (POrd.lt u w)) := by
  refine ⟨?_, ?_, ?_⟩
  · simp [SingularField.slt, SingularField.as_ref, SingularField.some,
      SingularField.none, Option.map, optLt]
  · intro ha hb
    obtain ⟨av, sa⟩ := a
    obtain ⟨bv, sb⟩ := b
    simp only at ha hb
    subst ha
    subst hb
    simp [SingularField.slt, SingularField.as_ref, optLt]
  · intro u w ha hav hb hbv
    obtain ⟨av, sa⟩ := a
    obtain ⟨bv, sb⟩ := b
    simp only at ha hav hb hbv
    subst ha
    subst hav
    subst hb
    subst hbv
    simp [SingularField.slt, SingularField.as_ref, Option.map, optLt]

/-- C10 witness: `none()` is strictly below `some 5`, and two cleared
containers (both retaining allocations) are not strictly ordered. -/
theorem SingularField.lt_logical_w :
    SingularField.slt (SingularField.none : SingularField Nat)
        (SingularField.some 5) = Option.some true
    ∧ SingularField.slt ((SingularField.some 3).clear)
        ((SingularField.some 4 : SingularField Nat).clear) = Option.some false :=
  ⟨(SingularField.lt_logical ((SingularField.some (3 : Nat)).clear)
      ((SingularField.some 4).clear) 5).1,
   (SingularField.lt_logical ((SingularField.some (3 : Nat)).clear)
      ((SingularField.some 4).clear) 5).2.1 rfl rfl⟩
